import Mathlib

/-!
Verification of the Donet message bus sources against their specification.

The embedding covers:
  * `src/src/protocol.rs` — the `Message` wire-opcode enumeration with its
    `u16` discriminant values;
  * `src/src/service_factory.rs` — the per-service bootstrap (`DonetService`
    trait impls), in particular `MessageDirectorService::start` and
    `DatabaseServerService::start`;
  * `src/libdonet/src/dcparameter.rs` — the `DCParameter` data model and its
    legacy hash contribution;
  * the Channel Registry contract of the specification (its implementation
    file is not among the staged sources, so it is modelled from the spec).

Machine integers are modelled as `Nat`/`Int`; Rust strings that the code
inspects character by character are modelled as `List Char`.
-/

/-- The wire opcode catalog of `src/src/protocol.rs` (`enum Message`,
`#[repr(u16)]`): one constructor per Rust variant, in source order. -/
inductive Message where
  | ClientHello
  | ClientHelloResp
  | ClientDisconnect
  | ClientEject
  | ClientHeartbeat
  | ClientObjectSetField
  | ClientObjectSetFields
  | ClientObjectLeaving
  | ClientObjectLeavingOwner
  | ClientEnterObjectRequired
  | ClientEnterObjectRequiredOther
  | ClientEnterObjectRequiredOwner
  | ClientEnterObjectRequiredOwnerOther
  | ClientDoneInterestResp
  | ClientAddInterest
  | ClientAddInterestMultiple
  | ClientRemoveInterest
  | ClientObjectLocation
  | CASetState
  | CASetClientID
  | CASendDatagram
  | CAEject
  | CADrop
  | CAGetNetworkAddress
  | CAGetNetworkAddressResp
  | CADeclareObject
  | CAUndeclareObject
  | CAAddSessionObject
  | CARemoveSessionObject
  | CASetFieldsSendable
  | CAOpenChannel
  | CACloseChannel
  | CAAddPostRemove
  | CAClearPostRemoves
  | CAAddInterest
  | CAAddInterestMultiple
  | CARemoveInterest
  | SSCreateObjectWithRequired
  | SSCreateObjectWithRequiredOther
  | SSDeleteAIObjects
  | SSObjectGetField
  | SSObjectGetFieldResp
  | SSObjectGetFields
  | SSObjectGetFieldsResp
  | SSObjectGetAll
  | SSObjectGetAllResp
  | SSObjectSetField
  | SSObjectSetFields
  | SSObjectDeleteFieldRAM
  | SSObjectDeleteFieldsRAM
  | SSObjectDeleteRAM
  | SSObjectSetLocation
  | SSObjectChangingLocation
  | SSObjectEnterLocationWithRequired
  | SSObjectEnterLocationWithRequiredOther
  | SSObjectGetLocation
  | SSObjectGetLocationResp
  | SSObjectSetAI
  | SSObjectChangingAI
  | SSObjectEnterAIWithRequired
  | SSObjectEnterAIWithRequiredOther
  | SSObjectGetAI
  | SSObjectGetAIResp
  | SSObjectSetOwner
  | SSObjectChangingOwner
  | SSObjectEnterOwnerWithRequired
  | SSObjectEnterOwnerWithRequiredOther
  | SSObjectGetOwner
  | SSObjectGetOwnerResp
  | SSObjectGetZoneObjects
  | SSObjectGetZonesObjects
  | SSObjectGetChildren
  | SSObjectGetZoneCount
  | SSObjectGetZoneCountResp
  | SSObjectGetZonesCount
  | SSObjectGetZonesCountResp
  | SSObjectGetChildCount
  | SSObjectGetChildCountResp
  | SSObjectDeleteZone
  | SSObjectDeleteZones
  | SSObjectDeleteChildren
  | DBSSObjectActivateWithDefaults
  | DBSSObjectActivateWithDefaultsOther
  | DBSSObjectGetActivated
  | DBSSObjectGetActivatedResp
  | DBSSObjectDeleteFieldDisk
  | DBSSObjectDeleteFieldsDisk
  | DBSSObjectDeleteDisk
  | DBCreateObject
  | DBCreateObjectResp
  | DBObjectGetField
  | DBObjectGetFieldResp
  | DBObjectGetFields
  | DBObjectGetFieldsResp
  | DBObjectGetAll
  | DBObjectGetAllResp
  | DBObjectSetField
  | DBObjectSetFields
  | DBObjectSetFieldIfEquals
  | DBObjectSetFieldIfEqualsResp
  | DBObjectSetFieldsIfEquals
  | DBObjectSetFieldsIfEqualsResp
  | DBObjectSetFieldIfEmpty
  | DBObjectSetFieldIfEmptyResp
  | DBObjectDeleteField
  | DBObjectDeleteFields
  | DBObjectDelete
  | MDAddChannel
  | MDRemoveChannel
  | MDAddRange
  | MDRemoveRange
  | MDAddPostRemove
  | MDClearPostRemoves
deriving DecidableEq

/-- The `u16` discriminant of each `Message` variant, exactly the numeric
values assigned in `src/src/protocol.rs`. -/
def Message.toVal : Message → Nat
  | .ClientHello => 1
  | .ClientHelloResp => 2
  | .ClientDisconnect => 3
  | .ClientEject => 4
  | .ClientHeartbeat => 5
  | .ClientObjectSetField => 120
  | .ClientObjectSetFields => 121
  | .ClientObjectLeaving => 132
  | .ClientObjectLeavingOwner => 161
  | .ClientEnterObjectRequired => 142
  | .ClientEnterObjectRequiredOther => 143
  | .ClientEnterObjectRequiredOwner => 172
  | .ClientEnterObjectRequiredOwnerOther => 173
  | .ClientDoneInterestResp => 204
  | .ClientAddInterest => 200
  | .ClientAddInterestMultiple => 201
  | .ClientRemoveInterest => 203
  | .ClientObjectLocation => 140
  | .CASetState => 1000
  | .CASetClientID => 1001
  | .CASendDatagram => 1002
  | .CAEject => 1004
  | .CADrop => 1005
  | .CAGetNetworkAddress => 1006
  | .CAGetNetworkAddressResp => 1007
  | .CADeclareObject => 1010
  | .CAUndeclareObject => 1011
  | .CAAddSessionObject => 1012
  | .CARemoveSessionObject => 1013
  | .CASetFieldsSendable => 1014
  | .CAOpenChannel => 1100
  | .CACloseChannel => 1101
  | .CAAddPostRemove => 1110
  | .CAClearPostRemoves => 1111
  | .CAAddInterest => 1200
  | .CAAddInterestMultiple => 1201
  | .CARemoveInterest => 1203
  | .SSCreateObjectWithRequired => 2000
  | .SSCreateObjectWithRequiredOther => 2001
  | .SSDeleteAIObjects => 2009
  | .SSObjectGetField => 2010
  | .SSObjectGetFieldResp => 2011
  | .SSObjectGetFields => 2012
  | .SSObjectGetFieldsResp => 2013
  | .SSObjectGetAll => 2014
  | .SSObjectGetAllResp => 2015
  | .SSObjectSetField => 2020
  | .SSObjectSetFields => 2021
  | .SSObjectDeleteFieldRAM => 2030
  | .SSObjectDeleteFieldsRAM => 2031
  | .SSObjectDeleteRAM => 2032
  | .SSObjectSetLocation => 2040
  | .SSObjectChangingLocation => 2041
  | .SSObjectEnterLocationWithRequired => 2042
  | .SSObjectEnterLocationWithRequiredOther => 2043
  | .SSObjectGetLocation => 2044
  | .SSObjectGetLocationResp => 2045
  | .SSObjectSetAI => 2050
  | .SSObjectChangingAI => 2051
  | .SSObjectEnterAIWithRequired => 2052
  | .SSObjectEnterAIWithRequiredOther => 2053
  | .SSObjectGetAI => 2054
  | .SSObjectGetAIResp => 2055
  | .SSObjectSetOwner => 2060
  | .SSObjectChangingOwner => 2061
  | .SSObjectEnterOwnerWithRequired => 2062
  | .SSObjectEnterOwnerWithRequiredOther => 2063
  | .SSObjectGetOwner => 2064
  | .SSObjectGetOwnerResp => 2065
  | .SSObjectGetZoneObjects => 2100
  | .SSObjectGetZonesObjects => 2102
  | .SSObjectGetChildren => 2104
  | .SSObjectGetZoneCount => 2110
  | .SSObjectGetZoneCountResp => 2111
  | .SSObjectGetZonesCount => 2112
  | .SSObjectGetZonesCountResp => 2113
  | .SSObjectGetChildCount => 2114
  | .SSObjectGetChildCountResp => 2115
  | .SSObjectDeleteZone => 2120
  | .SSObjectDeleteZones => 2122
  | .SSObjectDeleteChildren => 2124
  | .DBSSObjectActivateWithDefaults => 2200
  | .DBSSObjectActivateWithDefaultsOther => 2201
  | .DBSSObjectGetActivated => 2207
  | .DBSSObjectGetActivatedResp => 2208
  | .DBSSObjectDeleteFieldDisk => 2230
  | .DBSSObjectDeleteFieldsDisk => 2231
  | .DBSSObjectDeleteDisk => 2232
  | .DBCreateObject => 3000
  | .DBCreateObjectResp => 3001
  | .DBObjectGetField => 3010
  | .DBObjectGetFieldResp => 3011
  | .DBObjectGetFields => 3012
  | .DBObjectGetFieldsResp => 3013
  | .DBObjectGetAll => 3014
  | .DBObjectGetAllResp => 3015
  | .DBObjectSetField => 3020
  | .DBObjectSetFields => 3021
  | .DBObjectSetFieldIfEquals => 3022
  | .DBObjectSetFieldIfEqualsResp => 3023
  | .DBObjectSetFieldsIfEquals => 3024
  | .DBObjectSetFieldsIfEqualsResp => 3025
  | .DBObjectSetFieldIfEmpty => 3026
  | .DBObjectSetFieldIfEmptyResp => 3027
  | .DBObjectDeleteField => 3030
  | .DBObjectDeleteFields => 3031
  | .DBObjectDelete => 3032
  | .MDAddChannel => 9000
  | .MDRemoveChannel => 9001
  | .MDAddRange => 9002
  | .MDRemoveRange => 9003
  | .MDAddPostRemove => 9010
  | .MDClearPostRemoves => 9011

/-- The variants of the client protocol: everything above the
`Internal Messages` divider comment in `src/src/protocol.rs` (the `Client*`
session-lifecycle, object-field and interest-management opcodes). -/
def Message.isClient : Message → Bool
  | .ClientHello | .ClientHelloResp | .ClientDisconnect | .ClientEject
  | .ClientHeartbeat | .ClientObjectSetField | .ClientObjectSetFields
  | .ClientObjectLeaving | .ClientObjectLeavingOwner
  | .ClientEnterObjectRequired | .ClientEnterObjectRequiredOther
  | .ClientEnterObjectRequiredOwner | .ClientEnterObjectRequiredOwnerOther
  | .ClientDoneInterestResp | .ClientAddInterest | .ClientAddInterestMultiple
  | .ClientRemoveInterest | .ClientObjectLocation => true
  | _ => false

/-- The Message Director control opcodes: the block under the
`Message Director (Control)` comment in `src/src/protocol.rs`. -/
def Message.isMDControl : Message → Bool
  | .MDAddChannel | .MDRemoveChannel | .MDAddRange | .MDRemoveRange
  | .MDAddPostRemove | .MDClearPostRemoves => true
  | _ => false

/-- The partial inverse of `Message.toVal`: recovers the variant from its
`u16` discriminant (used only to establish injectivity of the catalog). -/
def Message.ofVal : Nat → Option Message
  | 1 => some .ClientHello
  | 2 => some .ClientHelloResp
  | 3 => some .ClientDisconnect
  | 4 => some .ClientEject
  | 5 => some .ClientHeartbeat
  | 120 => some .ClientObjectSetField
  | 121 => some .ClientObjectSetFields
  | 132 => some .ClientObjectLeaving
  | 161 => some .ClientObjectLeavingOwner
  | 142 => some .ClientEnterObjectRequired
  | 143 => some .ClientEnterObjectRequiredOther
  | 172 => some .ClientEnterObjectRequiredOwner
  | 173 => some .ClientEnterObjectRequiredOwnerOther
  | 204 => some .ClientDoneInterestResp
  | 200 => some .ClientAddInterest
  | 201 => some .ClientAddInterestMultiple
  | 203 => some .ClientRemoveInterest
  | 140 => some .ClientObjectLocation
  | 1000 => some .CASetState
  | 1001 => some .CASetClientID
  | 1002 => some .CASendDatagram
  | 1004 => some .CAEject
  | 1005 => some .CADrop
  | 1006 => some .CAGetNetworkAddress
  | 1007 => some .CAGetNetworkAddressResp
  | 1010 => some .CADeclareObject
  | 1011 => some .CAUndeclareObject
  | 1012 => some .CAAddSessionObject
  | 1013 => some .CARemoveSessionObject
  | 1014 => some .CASetFieldsSendable
  | 1100 => some .CAOpenChannel
  | 1101 => some .CACloseChannel
  | 1110 => some .CAAddPostRemove
  | 1111 => some .CAClearPostRemoves
  | 1200 => some .CAAddInterest
  | 1201 => some .CAAddInterestMultiple
  | 1203 => some .CARemoveInterest
  | 2000 => some .SSCreateObjectWithRequired
  | 2001 => some .SSCreateObjectWithRequiredOther
  | 2009 => some .SSDeleteAIObjects
  | 2010 => some .SSObjectGetField
  | 2011 => some .SSObjectGetFieldResp
  | 2012 => some .SSObjectGetFields
  | 2013 => some .SSObjectGetFieldsResp
  | 2014 => some .SSObjectGetAll
  | 2015 => some .SSObjectGetAllResp
  | 2020 => some .SSObjectSetField
  | 2021 => some .SSObjectSetFields
  | 2030 => some .SSObjectDeleteFieldRAM
  | 2031 => some .SSObjectDeleteFieldsRAM
  | 2032 => some .SSObjectDeleteRAM
  | 2040 => some .SSObjectSetLocation
  | 2041 => some .SSObjectChangingLocation
  | 2042 => some .SSObjectEnterLocationWithRequired
  | 2043 => some .SSObjectEnterLocationWithRequiredOther
  | 2044 => some .SSObjectGetLocation
  | 2045 => some .SSObjectGetLocationResp
  | 2050 => some .SSObjectSetAI
  | 2051 => some .SSObjectChangingAI
  | 2052 => some .SSObjectEnterAIWithRequired
  | 2053 => some .SSObjectEnterAIWithRequiredOther
  | 2054 => some .SSObjectGetAI
  | 2055 => some .SSObjectGetAIResp
  | 2060 => some .SSObjectSetOwner
  | 2061 => some .SSObjectChangingOwner
  | 2062 => some .SSObjectEnterOwnerWithRequired
  | 2063 => some .SSObjectEnterOwnerWithRequiredOther
  | 2064 => some .SSObjectGetOwner
  | 2065 => some .SSObjectGetOwnerResp
  | 2100 => some .SSObjectGetZoneObjects
  | 2102 => some .SSObjectGetZonesObjects
  | 2104 => some .SSObjectGetChildren
  | 2110 => some .SSObjectGetZoneCount
  | 2111 => some .SSObjectGetZoneCountResp
  | 2112 => some .SSObjectGetZonesCount
  | 2113 => some .SSObjectGetZonesCountResp
  | 2114 => some .SSObjectGetChildCount
  | 2115 => some .SSObjectGetChildCountResp
  | 2120 => some .SSObjectDeleteZone
  | 2122 => some .SSObjectDeleteZones
  | 2124 => some .SSObjectDeleteChildren
  | 2200 => some .DBSSObjectActivateWithDefaults
  | 2201 => some .DBSSObjectActivateWithDefaultsOther
  | 2207 => some .DBSSObjectGetActivated
  | 2208 => some .DBSSObjectGetActivatedResp
  | 2230 => some .DBSSObjectDeleteFieldDisk
  | 2231 => some .DBSSObjectDeleteFieldsDisk
  | 2232 => some .DBSSObjectDeleteDisk
  | 3000 => some .DBCreateObject
  | 3001 => some .DBCreateObjectResp
  | 3010 => some .DBObjectGetField
  | 3011 => some .DBObjectGetFieldResp
  | 3012 => some .DBObjectGetFields
  | 3013 => some .DBObjectGetFieldsResp
  | 3014 => some .DBObjectGetAll
  | 3015 => some .DBObjectGetAllResp
  | 3020 => some .DBObjectSetField
  | 3021 => some .DBObjectSetFields
  | 3022 => some .DBObjectSetFieldIfEquals
  | 3023 => some .DBObjectSetFieldIfEqualsResp
  | 3024 => some .DBObjectSetFieldsIfEquals
  | 3025 => some .DBObjectSetFieldsIfEqualsResp
  | 3026 => some .DBObjectSetFieldIfEmpty
  | 3027 => some .DBObjectSetFieldIfEmptyResp
  | 3030 => some .DBObjectDeleteField
  | 3031 => some .DBObjectDeleteFields
  | 3032 => some .DBObjectDelete
  | 9000 => some .MDAddChannel
  | 9001 => some .MDRemoveChannel
  | 9002 => some .MDAddRange
  | 9003 => some .MDRemoveRange
  | 9010 => some .MDAddPostRemove
  | 9011 => some .MDClearPostRemoves
  | _ => none

theorem Message.ofVal_toVal : ∀ m : Message, Message.ofVal m.toVal = some m := by
  intro m
  cases m <;> rfl

/-- C1: The fixed wire opcode catalog contains exactly six Message Director
control opcodes — add/remove channel, add/remove range, add/clear
post-removes — with the distinct numeric values `MDAddChannel = 9000`,
`MDRemoveChannel = 9001`, `MDAddRange = 9002`, `MDRemoveRange = 9003`,
`MDAddPostRemove = 9010`, `MDClearPostRemoves = 9011`. -/
theorem md_control_opcodes_exactly_six :
    (∀ m : Message, m.isMDControl = true ↔
      (m = Message.MDAddChannel ∨ m = Message.MDRemoveChannel ∨
       m = Message.MDAddRange ∨ m = Message.MDRemoveRange ∨
       m = Message.MDAddPostRemove ∨ m = Message.MDClearPostRemoves))
    ∧ Message.toVal Message.MDAddChannel = 9000
    ∧ Message.toVal Message.MDRemoveChannel = 9001
    ∧ Message.toVal Message.MDAddRange = 9002
    ∧ Message.toVal Message.MDRemoveRange = 9003
    ∧ Message.toVal Message.MDAddPostRemove = 9010
    ∧ Message.toVal Message.MDClearPostRemoves = 9011
    ∧ ([Message.MDAddChannel.toVal, Message.MDRemoveChannel.toVal,
        Message.MDAddRange.toVal, Message.MDRemoveRange.toVal,
        Message.MDAddPostRemove.toVal, Message.MDClearPostRemoves.toVal] :
        List Nat).Nodup := by
  refine ⟨?_, rfl, rfl, rfl, rfl, rfl, rfl, by decide⟩
  intro m
  cases m <;> decide

/-- C5: The opcode space is split: every client-protocol opcode has a numeric
value below 1000, and every internal opcode (client-agent, state-server,
database, DBSS and Message Director control) has a value of at least 1000. -/
theorem opcode_space_split :
    ∀ m : Message,
      (m.isClient = true → m.toVal < 1000) ∧
      (m.isClient = false → 1000 ≤ m.toVal) := by
  intro m
  cases m <;> decide

/-- C6: The mapping from catalog opcode to numeric value is injective — no two
variants of `Message` share a discriminant — and every value fits in an
unsigned 16-bit integer. -/
theorem message_toVal_injective_and_u16 :
    (∀ a b : Message, a.toVal = b.toVal → a = b) ∧
    (∀ m : Message, m.toVal < 65536) := by
  constructor
  · intro a b h
    have ha := Message.ofVal_toVal a
    have hb := Message.ofVal_toVal b
    rw [h, hb] at ha
    exact (Option.some.inj ha).symm
  · intro m
    cases m <;> decide

/-- Modelled from the spec (the `crate::config` module is not under `src/`):
the Message Director section of the configuration — a bind address for
accepting downstream connections and an optional upstream address
(absence means this node is a cluster root).  Field shapes follow the uses
in `src/src/service_factory.rs` (`md_conf.bind`, `md_conf.upstream`). -/
structure MessageDirectorConf where
  bind : String
  upstream : Option String
deriving DecidableEq

/-- Modelled from the spec (the `crate::config` module is not under `src/`):
the SQL backend section of the database-server configuration.  Field shapes
follow the uses in `src/src/service_factory.rs` (`sql_config.host`,
`.database`, `.user`, `.pass`).  The `host` string is inspected character by
character by `DatabaseServerService::start`, so it is a `List Char`. -/
structure SQLConf where
  host : List Char
  database : String
  user : String
  pass : String
deriving DecidableEq

/-- Modelled from the spec (the `crate::config` module is not under `src/`):
the database-server service section, holding the optional SQL backend
credentials (`db_server_conf.sql`). -/
structure DBServerConf where
  sql : Option SQLConf
deriving DecidableEq

/-- Modelled from the spec (the `crate::config` module is not under `src/`):
the per-service sections of the configuration
(`_conf.services.database_server`). -/
structure ServicesConf where
  database_server : Option DBServerConf
deriving DecidableEq

/-- Modelled from the spec (the `crate::config` module is not under `src/`):
the whole daemon configuration value handed to every service
(`DonetConfig`). -/
structure DonetConfig where
  message_director : MessageDirectorConf
  services : ServicesConf
deriving DecidableEq

/-- Modelled from the spec (`message_director.rs` is not under `src/`): the
Message Director value built by `MessageDirector::new(bind, upstream)` —
a local accept address plus the single optional upstream federation link. -/
structure MessageDirector where
  bind : String
  upstream : Option String
deriving DecidableEq

/-- Modelled from the spec (`message_director.rs` is not under `src/`):
`MessageDirector::new` stores the bind address and the optional upstream
address it is given. -/
def MessageDirector.new (bind : String) (upstream : Option String) :
    MessageDirector :=
  ⟨bind, upstream⟩

/-- The outcome of `MessageDirectorService::start`: either the process
panicked or the method returned `Ok(())`.  Both constructors record the
`MessageDirector` that was built before `init_network` ran. -/
inductive MDStartResult where
  | panicked (md : MessageDirector) (msg : String)
  | ok (md : MessageDirector)
deriving DecidableEq

def MDStartResult.md : MDStartResult → MessageDirector
  | .panicked m _ => m
  | .ok m => m

def MDStartResult.isPanicked : MDStartResult → Bool
  | .panicked _ _ => true
  | .ok _ => false

/-- `MessageDirectorService::start` (`src/src/service_factory.rs`,
lines 53–74).  The body of `MessageDirector::init_network` is not under
`src/`; per the spec its only failure is failing to bind the local accept
address, so it is modelled by the predicate `bindFails` applied to the
configured bind address. -/
def MessageDirectorService.start (conf : DonetConfig)
    (bindFails : String → Bool) : MDStartResult :=
  let md_conf : MessageDirectorConf := conf.message_director
  -- mirrors lines 58–64: `upstream` is `Some(md_conf.upstream.unwrap())`
  -- when `md_conf.upstream.is_some()`, and stays `None` otherwise
  let upstream : Option String :=
    match md_conf.upstream with
    | some connect => some connect
    | none => none
  let md : MessageDirector := MessageDirector.new md_conf.bind upstream
  if bindFails md_conf.bind then
    MDStartResult.panicked md "Cannot initialize DoNet daemon without MD."
  else
    MDStartResult.ok md

/-- The `DBCredentials` value built by `DatabaseServerService::start`
(declared in `dbserver.rs`, not under `src/`; field shapes follow the struct
literal at lines 119–125 of `src/src/service_factory.rs`). -/
structure DBCredentials where
  host : List Char
  port : Int
  database : String
  user : String
  pass : String
deriving DecidableEq

/-- The error kinds `std::io::ErrorKind` used by the bootstrap code. -/
inductive ErrorKind where
  | invalidInput
deriving DecidableEq

/-- The outcome of `DatabaseServerService::start`: `Ok(())` (recording the
credentials that were built), an `Err` return, or a panic. -/
inductive DBStartResult where
  | ok (creds : DBCredentials)
  | err (kind : ErrorKind) (msg : String)
  | panicked (msg : String)
deriving DecidableEq

/-- Rust `str::split` on a single separator character, on the model of
strings as `List Char`: splitting a string with `k` separators yields the
`k + 1` (possibly empty) pieces, left to right. -/
def splitOnChar (sep : Char) : List Char → List (List Char)
  | [] => [[]]
  | c :: rest =>
    let r := splitOnChar sep rest
    if c = sep then [] :: r
    else ((c :: r.headD []) :: r.tail)

/-- Rust `str::rsplit(sep).collect::<Vec<_>>()`: the split pieces in reverse
order, so index 0 is the piece after the last separator. -/
def rsplit (sep : Char) (s : List Char) : List (List Char) :=
  (splitOnChar sep s).reverse

/-- Rust `str::parse::<i16>()`: an optional sign followed by one or more
ASCII digits, whose value fits a signed 16-bit integer; anything else is a
parse error (`none`). -/
def parseI16 (s : List Char) : Option Int :=
  let signDigits : Int × List Char :=
    match s with
    | '-' :: rest => (-1, rest)
    | '+' :: rest => (1, rest)
    | _ => (1, s)
  let sign := signDigits.1
  let digits := signDigits.2
  if digits.isEmpty then none
  else if digits.all (fun c => c.isDigit) then
    let mag : Int := digits.foldl (fun acc c => acc * 10 + ((c.toNat : Int) - 48)) 0
    let n : Int := sign * mag
    if -32768 ≤ n ∧ n ≤ 32767 then some n else none
  else none

/-- `DatabaseServerService::start` (`src/src/service_factory.rs`,
lines 93–133).  The unchecked `unwrap` at line 99, the `host_port[1]`
indexing and the `parse::<i16>().unwrap()` at lines 120–121 are the panic
sites; `DatabaseServer::init_service` (not under `src/`) only has its error
logged, so the method returns `Ok` regardless of it once credentials are
built. -/
def DatabaseServerService.start (conf : DonetConfig) : DBStartResult :=
  match conf.services.database_server with
  | none => DBStartResult.panicked "called unwrap on a None value"
  | some db_server_conf =>
    match db_server_conf.sql with
    | none =>
      DBStartResult.err ErrorKind.invalidInput
        "Missing database backend credentials."
    | some sql_config =>
      match rsplit ':' sql_config.host with
      | port_str :: host_str :: _ =>
        -- `host: host_port[1]` resolves, then `host_port[0].parse().unwrap()`
        match parseI16 port_str with
        | none => DBStartResult.panicked "called unwrap on a None value"
        | some port =>
          DBStartResult.ok
            ⟨host_str, port, sql_config.database, sql_config.user,
             sql_config.pass⟩
      | _ => DBStartResult.panicked "index out of bounds"

/-- The closed set of service kinds of `src/src/service_factory.rs`: one
variant per unit struct implementing the `DonetService` trait. -/
inductive ServiceKind where
  | clientAgent
  | messageDirector
  | stateServer
  | databaseServer
  | dbss
  | eventLogger
deriving DecidableEq

/-- All six service kinds, one per `DonetService` impl. -/
def ServiceKind.allKinds : List ServiceKind :=
  [.clientAgent, .messageDirector, .stateServer, .databaseServer, .dbss,
   .eventLogger]

/-- The result of `DonetService::create`. -/
inductive CreateResult where
  | ok (svc : ServiceKind)
  | err (msg : String)
deriving DecidableEq

/-- `DonetService::create` for each service kind: every impl returns
`Ok(Box::new(SameService))` (`src/src/service_factory.rs`). -/
def ServiceKind.create : ServiceKind → CreateResult
  | .clientAgent => .ok .clientAgent
  | .messageDirector => .ok .messageDirector
  | .stateServer => .ok .stateServer
  | .databaseServer => .ok .databaseServer
  | .dbss => .ok .dbss
  | .eventLogger => .ok .eventLogger

theorem splitOnChar_ne_nil (sep : Char) (s : List Char) :
    splitOnChar sep s ≠ [] := by
  cases s with
  | nil => simp [splitOnChar]
  | cons c rest =>
    simp only [splitOnChar]
    by_cases h : c = sep <;> simp [h]

theorem splitOnChar_of_not_mem {sep : Char} {s : List Char} (h : sep ∉ s) :
    splitOnChar sep s = [s] := by
  induction s with
  | nil => rfl
  | cons c rest ih =>
    have hc : c ≠ sep := fun hc => h (hc ▸ List.mem_cons_self c rest)
    have hrest : sep ∉ rest := fun hm => h (List.mem_cons_of_mem c hm)
    simp [splitOnChar, hc, ih hrest]

theorem two_le_splitOnChar_length {sep : Char} {s : List Char} (h : sep ∈ s) :
    2 ≤ (splitOnChar sep s).length := by
  induction s with
  | nil => cases h
  | cons c rest ih =>
    simp only [splitOnChar]
    by_cases hc : c = sep
    · have h1 : 1 ≤ (splitOnChar sep rest).length :=
        List.length_pos.mpr (splitOnChar_ne_nil sep rest)
      simp [hc]
      omega
    · have hm : sep ∈ rest := by
        cases List.mem_cons.mp h with
        | inl he => exact absurd he.symm hc
        | inr hr => exact hr
      have h2 := ih hm
      have h1 : 1 ≤ (splitOnChar sep rest).length :=
        List.length_pos.mpr (splitOnChar_ne_nil sep rest)
      simp [hc]
      omega

/-- C2: `MessageDirectorService::start` passes exactly the configuration's
optional upstream address to the `MessageDirector` it constructs: a present
address string is passed unchanged, an absent one stays absent (cluster
root), and the configured bind address is passed as the local accept
address. -/
theorem md_start_passes_exact_upstream :
    ∀ (conf : DonetConfig) (bindFails : String → Bool),
      ((MessageDirectorService.start conf bindFails).md).upstream =
        conf.message_director.upstream ∧
      ((MessageDirectorService.start conf bindFails).md).bind =
        conf.message_director.bind := by
  intro conf f
  cases hu : conf.message_director.upstream <;>
    cases hb : f conf.message_director.bind <;>
      simp [MessageDirectorService.start, MessageDirector.new, hu, hb,
        MDStartResult.md]

/-- C3: `MessageDirectorService::start` panics exactly when the Message
Director's network initialization (binding the local accept address) fails;
when it succeeds the method returns `Ok(())` and nothing else in this
bootstrap path is fatal. -/
theorem md_start_panic_iff_bind_fails :
    ∀ (conf : DonetConfig) (bindFails : String → Bool),
      ((MessageDirectorService.start conf bindFails).isPanicked = true ↔
        bindFails conf.message_director.bind = true) ∧
      (bindFails conf.message_director.bind = false →
        ∃ md : MessageDirector,
          MessageDirectorService.start conf bindFails = MDStartResult.ok md) := by
  intro conf f
  cases hb : f conf.message_director.bind <;>
    simp [MessageDirectorService.start, MDStartResult.isPanicked, hb]

/-- C7: The service bootstrap is a closed set of exactly six kinds — client
agent, message director, state server, database server, DBSS, event
logger — and for each kind `create()` succeeds and yields a service of that
same kind. -/
theorem service_bootstrap_closed_set :
    (∀ k : ServiceKind, k ∈ ServiceKind.allKinds) ∧
    ServiceKind.allKinds.Nodup ∧
    ServiceKind.allKinds.length = 6 ∧
    (∀ k : ServiceKind, ServiceKind.create k = CreateResult.ok k) := by
  refine ⟨?_, by decide, rfl, ?_⟩
  · intro k
    cases k <;> decide
  · intro k
    cases k <;> rfl

/-- C8: `DatabaseServerService::start` panics on well-formed inputs even when
the SQL configuration is present: if the configured SQL host contains no
`:` separator the `host_port[1]` indexing is out of bounds, and if the piece
after the last `:` does not parse as a signed 16-bit decimal integer the
`parse::<i16>().unwrap()` fails. -/
theorem db_start_panics_on_bad_host :
    ∀ (conf : DonetConfig) (d : DBServerConf) (s : SQLConf),
      conf.services.database_server = some d →
      d.sql = some s →
      ((Char.ofNat 58) ∉ s.host →
        DatabaseServerService.start conf =
          DBStartResult.panicked "index out of bounds") ∧
      ((Char.ofNat 58) ∈ s.host →
        parseI16 ((rsplit (Char.ofNat 58) s.host).headD []) = none →
        DatabaseServerService.start conf =
          DBStartResult.panicked "called unwrap on a None value") := by
  intro conf d s hd hs
  have hcolon : Char.ofNat 58 = ':' := rfl
  constructor
  · intro hn
    rw [hcolon] at hn
    have h1 : splitOnChar ':' s.host = [s.host] := splitOnChar_of_not_mem hn
    simp [DatabaseServerService.start, hd, hs, rsplit, h1]
  · intro hm hp
    rw [hcolon] at hm hp
    have h2 : 2 ≤ (splitOnChar ':' s.host).length := two_le_splitOnChar_length hm
    have hlen : (rsplit ':' s.host).length = (splitOnChar ':' s.host).length := by
      simp [rsplit]
    rcases hr : rsplit ':' s.host with _ | ⟨p, rest⟩
    · exfalso
      rw [hr] at hlen
      simp at hlen
      omega
    · rcases rest with _ | ⟨h1, t⟩
      · exfalso
        rw [hr] at hlen
        simp at hlen
        omega
      · have hp' : parseI16 p = none := by
          rw [hr] at hp
          simpa using hp
        simp [DatabaseServerService.start, hd, hs, hr, hp']

/-- C9: when the database-server configuration is present but its SQL section
is absent, `DatabaseServerService::start` returns an `InvalidInput` error —
no panic, and no database server is constructed. -/
theorem db_start_missing_sql_invalid_input :
    ∀ (conf : DonetConfig) (d : DBServerConf),
      conf.services.database_server = some d →
      d.sql = none →
      DatabaseServerService.start conf =
        DBStartResult.err ErrorKind.invalidInput
          "Missing database backend credentials." := by
  intro conf d hd hs
  simp [DatabaseServerService.start, hd, hs]

/-- A sample SQL section whose host has no `:` separator. -/
def sqlNoColon : SQLConf :=
  ⟨[Char.ofNat 100, Char.ofNat 98], "donet", "user", "pw"⟩

/-- A sample configuration carrying `sqlNoColon`. -/
def confNoColon : DonetConfig :=
  ⟨⟨"127.0.0.1:7199", none⟩, ⟨some ⟨some sqlNoColon⟩⟩⟩

/-- Witness for C8: on a concrete configuration whose SQL host is the
two-character string with no `:`, the bootstrap panics with the
out-of-bounds indexing. -/
theorem db_start_panics_on_bad_host_witness :
    DatabaseServerService.start confNoColon =
      DBStartResult.panicked "index out of bounds" :=
  (db_start_panics_on_bad_host confNoColon ⟨some sqlNoColon⟩ sqlNoColon rfl
    rfl).1 (by decide)

/-- A sample configuration whose database-server section has no SQL
credentials. -/
def confNoSql : DonetConfig :=
  ⟨⟨"127.0.0.1:7199", none⟩, ⟨some ⟨none⟩⟩⟩

/-- Witness for C9: on a concrete configuration with the SQL section absent,
the bootstrap returns the `InvalidInput` error. -/
theorem db_start_missing_sql_invalid_input_witness :
    DatabaseServerService.start confNoSql =
      DBStartResult.err ErrorKind.invalidInput
        "Missing database backend credentials." :=
  db_start_missing_sql_invalid_input confNoSql ⟨none⟩ rfl rfl

/-- Modelled from the spec: the Channel Registry of §4.1 (its implementation
file is not under `src/`) — a mapping from channel identifier to the set of
connections subscribed to it, kept as a set of (channel, connection-handle)
pairs.  Channels are 64-bit opaque identifiers and connection handles stable
integers (§3, design note on arenas), both modelled as `Nat`. -/
structure ChannelRegistry where
  subs : List (Nat × Nat)
deriving DecidableEq

/-- Modelled from the spec: `subscribe(connection, channel)` adds the
connection to the channel's subscriber set, idempotently. -/
def ChannelRegistry.subscribe (r : ChannelRegistry) (conn chan : Nat) :
    ChannelRegistry :=
  if (chan, conn) ∈ r.subs then r else ⟨(chan, conn) :: r.subs⟩

/-- Modelled from the spec: `unsubscribe(connection, channel)` removes the
connection from the channel's subscriber set, a no-op if absent. -/
def ChannelRegistry.unsubscribe (r : ChannelRegistry) (conn chan : Nat) :
    ChannelRegistry :=
  ⟨r.subs.filter (fun p => !(p.1 == chan && p.2 == conn))⟩

/-- Modelled from the spec: `subscribers_of(channel)` — the connections
subscribed to the channel, for routing. -/
def ChannelRegistry.subscribers_of (r : ChannelRegistry) (chan : Nat) :
    List Nat :=
  (r.subs.filter (fun p => p.1 == chan)).map (fun p => p.2)

/-- C4: for every registry state, connection `C` and channel `c`, after
`subscribe(C, c)` followed by `unsubscribe(C, c)` the set
`subscribers_of(c)` does not contain `C`. -/
theorem subscribe_then_unsubscribe_not_subscriber :
    ∀ (r : ChannelRegistry) (conn chan : Nat),
      conn ∉ ((r.subscribe conn chan).unsubscribe conn chan).subscribers_of
        chan := by
  intro r conn chan h
  simp [ChannelRegistry.subscribers_of, ChannelRegistry.unsubscribe,
    List.mem_map, List.mem_filter] at h

/-- The `DCParameter` struct of `src/libdonet/src/dcparameter.rs`.  The
`parent` atomic-field pointer and the `base_type` type definition live in
modules not under `src/` (`dcatomic.rs`, `dctype.rs`), so their types are
parameters of the model; the default value is a byte vector. -/
structure DCParameter (Atomic TypeDef : Type) where
  parent : Atomic
  base_type : TypeDef
  identifier : Option String
  type_alias : String
  default_value : List Nat
  has_default_value : Bool

/-- `LegacyDCHash for DCParameter` (`dcparameter.rs`, lines 45–49):
`generate_hash` forwards to `self.base_type.generate_hash(hashgen)`.  The
hash contribution of a `DCTypeDefinition` is defined in `dctype.rs` (not
under `src/`), so it is the parameter `type_hash`; the claim holds for every
such function. -/
def DCParameter.generate_hash {Atomic TypeDef HashGen : Type}
    (type_hash : TypeDef → HashGen → HashGen)
    (p : DCParameter Atomic TypeDef) (hashgen : HashGen) : HashGen :=
  type_hash p.base_type hashgen

/-- `DCParameter::set_type` (`dcparameter.rs`, lines 67–69). -/
def DCParameter.set_type {Atomic TypeDef : Type}
    (p : DCParameter Atomic TypeDef) (dtype : TypeDef) :
    DCParameter Atomic TypeDef :=
  { p with base_type := dtype }

/-- `DCParameter::set_identifier` (`dcparameter.rs`, lines 71–73). -/
def DCParameter.set_identifier {Atomic TypeDef : Type}
    (p : DCParameter Atomic TypeDef) (name : String) :
    DCParameter Atomic TypeDef :=
  { p with identifier := some name }

/-- `DCParameter::set_default_value` (`dcparameter.rs`, lines 75–78). -/
def DCParameter.set_default_value {Atomic TypeDef : Type}
    (p : DCParameter Atomic TypeDef) (v : List Nat) :
    DCParameter Atomic TypeDef :=
  { p with default_value := v, has_default_value := true }

/-- C10: the legacy hash contribution of a `DCParameter` depends only on its
base type: two parameters with equal `base_type` hash identically whatever
the identifier or default value, and `set_identifier` / `set_default_value`
never change the generated hash — for every hash-generator state and every
interpretation of the base type's own hash function. -/
theorem dcparameter_hash_depends_only_on_base_type :
    ∀ (Atomic TypeDef HashGen : Type)
      (type_hash : TypeDef → HashGen → HashGen)
      (p q : DCParameter Atomic TypeDef) (g : HashGen)
      (name : String) (v : List Nat),
      (p.base_type = q.base_type →
        p.generate_hash type_hash g = q.generate_hash type_hash g) ∧
      (p.set_identifier name).generate_hash type_hash g =
        p.generate_hash type_hash g ∧
      (p.set_default_value v).generate_hash type_hash g =
        p.generate_hash type_hash g := by
  intro A T H th p q g n v
  refine ⟨fun h => ?_, rfl, rfl⟩
  simp [DCParameter.generate_hash, h]
